import Mathlib

set_option autoImplicit false

/-!
# Verification of the F1 backend (`main.py`)

A shallow embedding of the FastAPI backend in `main.py`: a read-through
proxy over the Ergast F1 API with an offline fallback for the seasons
listing, plus two favorites collections.

Modelling conventions:
* Parsed JSON bodies are values of the inductive `Json` type (numbers that
  matter here are integers, so `Json.num : Int → Json`).
* Python runtime failures that the handlers can hit are the `PyErr` type;
  `fastapi.HTTPException` is `PyErr.httpException status detail`.
* `requests.get` is abstracted as a function `Net` from the requested URL
  and query parameters to an outcome (`HttpResult`): either a response
  with a status code and parsed body, or a transport failure
  (`requests.exceptions.RequestException`).
* Python operations used by the source (`dict.get` with default, `len`,
  subscripts, truthiness, list slicing) are embedded with their Python
  semantics, including the error they raise when misapplied.
* `datetime.utcnow().year` is threaded through as a `currentYear : Nat`
  parameter.
-/

namespace F1Api

/-- A parsed JSON value, the result of `r.json()`. -/
inductive Json where
  | null
  | bool (b : Bool)
  | num (n : Int)
  | str (s : String)
  | arr (elems : List Json)
  | obj (fields : List (String × Json))

/-- Python-level failures reachable from the handlers. `httpException`
models `fastapi.HTTPException(status_code, detail)`. -/
inductive PyErr where
  | keyError (key : String)
  | indexError
  | typeError
  | attributeError
  | httpException (status : Nat) (detail : String)

/-- Python `j.get(key, dflt)`: on a dict, the value at `key` or the
default; on anything else `AttributeError` (no `.get` attribute). -/
def dictGet (j : Json) (key : String) (dflt : Json) : Except PyErr Json :=
  match j with
  | .obj fields =>
    match fields.lookup key with
    | some v => Except.ok v
    | none => Except.ok dflt
  | _ => Except.error PyErr.attributeError

/-- Python truthiness of a JSON value (`if races:` etc.). -/
def pyTruthy : Json → Bool
  | .null => false
  | .bool b => b
  | .num n => n != 0
  | .str s => !s.isEmpty
  | .arr xs => !xs.isEmpty
  | .obj fs => !fs.isEmpty

/-- Python `len(j)`: defined for lists, strings and dicts, `TypeError`
otherwise. -/
def pyLen : Json → Except PyErr Int
  | .arr xs => Except.ok xs.length
  | .str s => Except.ok s.length
  | .obj fs => Except.ok fs.length
  | _ => Except.error PyErr.typeError

/-- Python `j[i]` for an integer index: list indexing with negative-index
wraparound and `IndexError` out of range; `TypeError` on non-sequences. -/
def pyGetItemIdx (j : Json) (i : Int) : Except PyErr Json :=
  match j with
  | .arr xs =>
    let k : Int := if i < 0 then i + xs.length else i
    if h : 0 ≤ k ∧ k.toNat < xs.length then Except.ok (xs.get ⟨k.toNat, h.2⟩)
    else Except.error PyErr.indexError
  | _ => Except.error PyErr.typeError

/-- Python `j[key]` for a string key: dict lookup raising `KeyError` when
the key is absent; `TypeError` on non-dicts. -/
def pyGetItemKey (j : Json) (key : String) : Except PyErr Json :=
  match j with
  | .obj fields =>
    match fields.lookup key with
    | some v => Except.ok v
    | none => Except.error (PyErr.keyError key)
  | _ => Except.error PyErr.typeError

/-- Python slice index normalization for `l[start:stop]`: negative indices
count from the end, then both ends are clamped to `[0, len]`. -/
def pySliceBound (len : Nat) (i : Int) : Nat :=
  if i < 0 then (i + len).toNat else min i.toNat len

/-- Python `l[start:stop]`. -/
def pySlice {α : Type} (l : List α) (start stop : Int) : List α :=
  (l.take (pySliceBound l.length stop)).drop (pySliceBound l.length start)

/-- Outcome of one `requests.get` call: an HTTP response (status code and
parsed JSON body) or a transport-level `RequestException`. -/
inductive HttpResult where
  | response (status : Nat) (body : Json)
  | requestException

/-- The network, abstracted: URL and query parameters to outcome. -/
abbrev Net := String → List (String × Int) → HttpResult

def ERGAST_BASE : String := "https://ergast.com/api/f1"

/-- The URL `fetch_ergast` requests: the base, a slash, the endpoint path,
then `.json`. -/
def ergastUrl (endpoint : String) : String :=
  ERGAST_BASE ++ "/" ++ endpoint ++ ".json"

/-- Upstream client `fetch_ergast`: GET the URL; a non-200 status raises
an HTTP exception with status 502 and detail `Upstream error` followed by
the status code; a `RequestException` raises an HTTP exception with status
503 and a fixed detail naming the upstream host; otherwise the parsed body
is returned. Call sites that pass no query parameters pass `[]` here (in
the source the `params` argument defaults to `None`). -/
def fetch_ergast (net : Net) (endpoint : String) (params : List (String × Int)) :
    Except PyErr Json :=
  match net (ergastUrl endpoint) params with
  | .response status body =>
    if status ≠ 200 then
      Except.error (PyErr.httpException 502 ("Upstream error " ++ toString status))
    else Except.ok body
  | .requestException =>
    Except.error (PyErr.httpException 503 "External data source unavailable: ergast.com")

/-- The Wikipedia reference URL the offline generator attaches to a year. -/
def wikipediaSeasonUrl (year : Nat) : String :=
  "https://en.wikipedia.org/wiki/" ++ toString year ++ "_Formula_One_World_Championship"

/-- One synthetic season record of `offline_seasons`. -/
def seasonRecord (year : Nat) : Json :=
  Json.obj [("season", Json.str (toString year)), ("url", Json.str (wikipediaSeasonUrl year))]

/-- The full (unsliced) list built by `offline_seasons`: years
`range(1950, current_year + 1)` mapped to season records. -/
def seasonsList (currentYear : Nat) : List Json :=
  (List.range' 1950 (currentYear + 1 - 1950)).map seasonRecord

/-- Number of years from 1950 through `currentYear` inclusive. -/
def totalYears (currentYear : Nat) : Nat := currentYear + 1 - 1950

/-- Offline generator `offline_seasons`: slice the full list as
`seasons_list[offset : offset + limit]` and wrap the page in an object
with keys `count`, `items` and `offline` (the latter `True`). -/
def offline_seasons (currentYear : Nat) (limit offset : Int) : Json :=
  let paged := pySlice (seasonsList currentYear) offset (offset + limit)
  Json.obj [("count", Json.num paged.length), ("items", Json.arr paged),
            ("offline", Json.bool true)]

/-- The envelope extraction the data endpoints share: `data.get` chained
through `MRData`, the table key and the list key, with an empty dict as
default at the first two levels and an empty list at the last. -/
def extractEnvelope (data : Json) (table listKey : String) : Except PyErr Json := do
  let mr ← dictGet data "MRData" (Json.obj [])
  let tbl ← dictGet mr table (Json.obj [])
  dictGet tbl listKey (Json.arr [])

/-- The `except HTTPException` clause every data endpoint ends with:
a 503 is replaced by the fallback payload of the endpoint, every other
`HTTPException` (and every non-`HTTPException` error) is re-raised. -/
def catchUnavailable (tryBody : Except PyErr Json) (fallback : Json) : Except PyErr Json :=
  match tryBody with
  | .error (.httpException status detail) =>
    if status = 503 then Except.ok fallback
    else Except.error (PyErr.httpException status detail)
  | r => r

/-- Endpoint path strings the handlers pass to `fetch_ergast` (f-strings
in the source). Note `racesPath` already carries `.json`. -/
def seasonsPath : String := "seasons"

def driversPath (season : Int) : String := toString season ++ "/drivers"

def constructorsPath (season : Int) : String := toString season ++ "/constructors"

def racesPath (season : Int) : String := toString season ++ ".json"

def resultsPath (season round : Int) : String :=
  toString season ++ "/" ++ toString round ++ "/results"

/-- Handler for GET `/api/seasons` (`list_seasons`). -/
def list_seasons (net : Net) (currentYear : Nat) (limit offset : Int) :
    Except PyErr Json :=
  catchUnavailable
    (do
      let data ← fetch_ergast net seasonsPath [("limit", limit), ("offset", offset)]
      let seasons ← extractEnvelope data "SeasonTable" "Seasons"
      let n ← pyLen seasons
      pure (Json.obj [("count", Json.num n), ("items", seasons)]))
    (offline_seasons currentYear limit offset)

/-- FastAPI parameter binding for `/api/seasons`: absent query parameters
take the signature defaults `limit=80`, `offset=0`. -/
def list_seasons_endpoint (net : Net) (currentYear : Nat) (limitQ offsetQ : Option Int) :
    Except PyErr Json :=
  list_seasons net currentYear (limitQ.getD 80) (offsetQ.getD 0)

/-- Handler for GET `/api/<season>/drivers` (`list_drivers`). -/
def list_drivers (net : Net) (season : Int) : Except PyErr Json :=
  catchUnavailable
    (do
      let data ← fetch_ergast net (driversPath season) []
      let drivers ← extractEnvelope data "DriverTable" "Drivers"
      let n ← pyLen drivers
      pure (Json.obj [("season", Json.num season), ("count", Json.num n),
                      ("items", drivers)]))
    (Json.obj [("season", Json.num season), ("count", Json.num 0),
               ("items", Json.arr []), ("offline", Json.bool true)])

/-- Handler for GET `/api/<season>/constructors` (`list_constructors`). -/
def list_constructors (net : Net) (season : Int) : Except PyErr Json :=
  catchUnavailable
    (do
      let data ← fetch_ergast net (constructorsPath season) []
      let constructors ← extractEnvelope data "ConstructorTable" "Constructors"
      let n ← pyLen constructors
      pure (Json.obj [("season", Json.num season), ("count", Json.num n),
                      ("items", constructors)]))
    (Json.obj [("season", Json.num season), ("count", Json.num 0),
               ("items", Json.arr []), ("offline", Json.bool true)])

/-- Handler for GET `/api/<season>/races` (`list_races`); its endpoint
path already ends in `.json`, to which `fetch_ergast` appends another
`.json`. -/
def list_races (net : Net) (season : Int) : Except PyErr Json :=
  catchUnavailable
    (do
      let data ← fetch_ergast net (racesPath season) []
      let races ← extractEnvelope data "RaceTable" "Races"
      let n ← pyLen races
      pure (Json.obj [("season", Json.num season), ("count", Json.num n),
                      ("items", races)]))
    (Json.obj [("season", Json.num season), ("count", Json.num 0),
               ("items", Json.arr []), ("offline", Json.bool true)])

/-- Handler for GET `/api/<season>/<round>/results` (`race_results`),
including the conditional subscript of the first race in the source:
`races[0]["Results"] if races else []`. -/
def race_results (net : Net) (season round : Int) : Except PyErr Json :=
  catchUnavailable
    (do
      let data ← fetch_ergast net (resultsPath season round) []
      let races ← extractEnvelope data "RaceTable" "Races"
      let results ←
        if pyTruthy races then do
          let firstRace ← pyGetItemIdx races 0
          pyGetItemKey firstRace "Results"
        else pure (Json.arr [])
      let n ← pyLen results
      pure (Json.obj [("season", Json.num season), ("round", Json.num round),
                      ("count", Json.num n), ("items", results)]))
    (Json.obj [("season", Json.num season), ("round", Json.num round),
               ("count", Json.num 0), ("items", Json.arr []),
               ("offline", Json.bool true)])

/-! ## Favorites (`/api/favorites/...`)

The database module (`database.py`, imported by `main.py`) is not part of
the sources; only the handlers are. The handlers below therefore take the
list of documents returned by `get_documents(collection)` as a parameter. -/

/-- Modelled from the spec: the storage layer (`database.py`) is missing
from the sources, so the values stored in a favorites document are
modelled from the data model of the spec. Persisted favorite payloads are
string fields, and the store assigns each document an internal identifier
`_id` of a dedicated raw type (the `ObjectId` of MongoDB, abstracted here
as `objectId` over an abstract id). `str()` of an identifier is its
string rendering `objectIdStr`. -/
inductive MVal where
  | null
  | str (s : String)
  | objectId (id : Nat)
  deriving DecidableEq

/-- Abstract string rendering of a raw identifier (`str(ObjectId(...))`). -/
def objectIdStr (id : Nat) : String := toString id

/-- Python `str(v)` for stored values. -/
def mvalStr : MVal → String
  | .null => "None"
  | .str s => s
  | .objectId id => objectIdStr id

/-- Whether a stored value is a raw internal identifier. -/
def MVal.isRawId : MVal → Bool
  | .objectId _ => true
  | _ => false

/-- A stored document: string keys to stored values. -/
abbrev Doc := List (String × MVal)

/-- The loop body of the favorites list handlers:
`if "_id" in d: d["_id"] = str(d["_id"])`. -/
def convertId (d : Doc) : Doc :=
  if (d.lookup "_id").isSome then
    d.map (fun kv => if kv.1 = "_id" then (kv.1, MVal.str (mvalStr kv.2)) else kv)
  else d

/-- The favorites list response: a `count` and the `items` themselves. -/
structure FavListResponse where
  count : Nat
  items : List Doc

/-- Handler for GET `/api/favorites/drivers`, applied to the documents
the store returned for the collection named `favoritedriver`. -/
def get_favorite_drivers (docs : List Doc) : FavListResponse :=
  let converted := docs.map convertId
  ⟨converted.length, converted⟩

/-- Handler for GET `/api/favorites/constructors`, applied to the
documents the store returned for the collection named
`favoriteconstructor`. -/
def get_favorite_constructors (docs : List Doc) : FavListResponse :=
  let converted := docs.map convertId
  ⟨converted.length, converted⟩

/-! ## Helpers for stating the claims -/

/-- Field lookup on a JSON object (`none` on non-objects). -/
def jsonLookup (j : Json) (key : String) : Option Json :=
  match j with
  | .obj fields => fields.lookup key
  | _ => none

/-- The `items` list of a response object (`[]` when absent). -/
def responseItems (j : Json) : List Json :=
  match jsonLookup j "items" with
  | some (.arr xs) => xs
  | _ => []

/-- Some level of the envelope path is missing: walking `path` through
nested objects, at some step the current value is an object without the
next key. -/
def envelopeMissingB : Json → List String → Bool
  | _, [] => false
  | .obj fields, key :: rest =>
    match fields.lookup key with
    | none => true
    | some v => envelopeMissingB v rest
  | _, _ :: _ => false

/-- The `season` field of a record, as a string. -/
def seasonStr (j : Json) : Option String :=
  match jsonLookup j "season" with
  | some (.str s) => some s
  | _ => none

/-- A network on which every request fails at the transport level. -/
def downNet : Net := fun _ _ => HttpResult.requestException

/-- A network on which every request yields the same response. -/
def constNet (status : Nat) (body : Json) : Net := fun _ _ => HttpResult.response status body

/-- Property of a URL string: it ends in one `.json` and not in `.json.json`. -/
def singleJsonSuffix (url : String) : Prop :=
  ".json".data <:+ url.data ∧ ¬ (".json.json".data <:+ url.data)

/-- Numeric value of a decimal digit character. -/
def digitVal (c : Char) : Nat := c.toNat - 48

/-- Numeric value of a decimal digit string, used to invert `Nat.repr`. -/
def digitsVal (cs : List Char) : Nat := cs.foldl (fun a c => 10 * a + digitVal c) 0

/-! ## General lemmas -/

theorem seasonsList_length (c : Nat) : (seasonsList c).length = totalYears c := by
  simp [seasonsList, totalYears]

theorem intToString_ofNat (n : Nat) : toString (n : Int) = toString n := rfl

theorem extractEnvelope_of_missing (body : Json) (table listKey : String)
    (h : envelopeMissingB body ["MRData", table, listKey] = true) :
    extractEnvelope body table listKey = Except.ok (Json.arr []) := by
  cases body with
  | obj fields =>
    simp only [envelopeMissingB] at h
    cases hm : fields.lookup "MRData" with
    | none => simp [extractEnvelope, dictGet, hm, Bind.bind, Except.bind]
    | some v =>
      rw [hm] at h
      cases v with
      | obj fs2 =>
        simp only [envelopeMissingB] at h
        cases h2 : fs2.lookup table with
        | none => simp [extractEnvelope, dictGet, hm, h2, Bind.bind, Except.bind]
        | some w =>
          rw [h2] at h
          cases w with
          | obj fs3 =>
            simp only [envelopeMissingB] at h
            cases h3 : fs3.lookup listKey with
            | none => simp [extractEnvelope, dictGet, hm, h2, h3, Bind.bind, Except.bind]
            | some u => rw [h3] at h; simp [envelopeMissingB] at h
          | null => simp [envelopeMissingB] at h
          | bool b => simp [envelopeMissingB] at h
          | num n => simp [envelopeMissingB] at h
          | str s => simp [envelopeMissingB] at h
          | arr xs => simp [envelopeMissingB] at h
      | null => simp [envelopeMissingB] at h
      | bool b => simp [envelopeMissingB] at h
      | num n => simp [envelopeMissingB] at h
      | str s => simp [envelopeMissingB] at h
      | arr xs => simp [envelopeMissingB] at h
  | null => simp [envelopeMissingB] at h
  | bool b => simp [envelopeMissingB] at h
  | num n => simp [envelopeMissingB] at h
  | str s => simp [envelopeMissingB] at h
  | arr xs => simp [envelopeMissingB] at h

theorem suffix_drop_front {α : Type} (x u t : List α) (h : t <:+ x ++ u)
    (hlen : t.length ≤ u.length) : t <:+ u := by
  induction x with
  | nil => simpa using h
  | cons a x ih =>
    rw [List.cons_append] at h
    rcases List.suffix_cons_iff.1 h with heq | h'
    · have := congrArg List.length heq
      simp [List.length_append] at this
      omega
    · exact ih h'

theorem singleJson_of_data (url pre tail : String)
    (hd : url.data = pre.data ++ tail.data)
    (hlen : 10 ≤ tail.data.length)
    (h5 : ".json".data <:+ tail.data)
    (h10 : ¬ (".json.json".data <:+ tail.data)) :
    singleJsonSuffix url := by
  constructor
  · rw [hd]
    exact h5.trans (List.suffix_append _ _)
  · intro hc
    rw [hd] at hc
    have h1 : (".json.json".data).length = 10 := rfl
    exact h10 (suffix_drop_front _ _ _ hc (by omega))

theorem driversUrl_data (season : Int) :
    (ergastUrl (driversPath season)).data
      = (ERGAST_BASE ++ "/" ++ toString season).data ++ "/drivers.json".data := by
  have ha : "/drivers".data ++ ".json".data = "/drivers.json".data := rfl
  simp [ergastUrl, driversPath, String.data_append, List.append_assoc, ← ha]

theorem constructorsUrl_data (season : Int) :
    (ergastUrl (constructorsPath season)).data
      = (ERGAST_BASE ++ "/" ++ toString season).data ++ "/constructors.json".data := by
  have ha : "/constructors".data ++ ".json".data = "/constructors.json".data := rfl
  simp [ergastUrl, constructorsPath, String.data_append, List.append_assoc, ← ha]

theorem resultsUrl_data (season round : Int) :
    (ergastUrl (resultsPath season round)).data
      = (ERGAST_BASE ++ "/" ++ toString season ++ "/" ++ toString round).data
          ++ "/results.json".data := by
  have ha : "/results".data ++ ".json".data = "/results.json".data := rfl
  simp [ergastUrl, resultsPath, String.data_append, List.append_assoc, ← ha]

theorem racesUrl_data (season : Int) :
    (ergastUrl (racesPath season)).data
      = (ERGAST_BASE ++ "/" ++ toString season).data ++ ".json.json".data := by
  have ha : ".json".data ++ ".json".data = ".json.json".data := rfl
  simp [ergastUrl, racesPath, String.data_append, List.append_assoc, ← ha]

theorem digitsVal_append_one (l : List Char) (d : Char) :
    digitsVal (l ++ [d]) = 10 * digitsVal l + digitVal d := by
  simp [digitsVal, List.foldl_append]

theorem toDigitsCore_acc (fuel : Nat) : ∀ (n : Nat) (acc : List Char),
    Nat.toDigitsCore 10 fuel n acc = Nat.toDigitsCore 10 fuel n [] ++ acc := by
  induction fuel with
  | zero => intro n acc; simp [Nat.toDigitsCore]
  | succ f ih =>
    intro n acc
    simp only [Nat.toDigitsCore]
    by_cases h : n / 10 = 0
    · simp [h]
    · rw [if_neg h, if_neg h, ih (n / 10) (Nat.digitChar (n % 10) :: acc),
          ih (n / 10) [Nat.digitChar (n % 10)], List.append_assoc]
      rfl

theorem digitVal_digitChar (n : Nat) (h : n < 10) : digitVal (Nat.digitChar n) = n := by
  interval_cases n <;> rfl

theorem digitsVal_toDigitsCore : ∀ (fuel n : Nat), n < fuel →
    digitsVal (Nat.toDigitsCore 10 fuel n []) = n := by
  intro fuel
  induction fuel with
  | zero => intro n h; omega
  | succ f ih =>
    intro n hn
    simp only [Nat.toDigitsCore]
    by_cases h : n / 10 = 0
    · rw [if_pos h]
      simp only [digitsVal, List.foldl_cons, List.foldl_nil, Nat.mul_zero, Nat.zero_add]
      rw [digitVal_digitChar (n % 10) (by omega)]
      omega
    · rw [if_neg h, toDigitsCore_acc, digitsVal_append_one,
          ih (n / 10) (by omega), digitVal_digitChar (n % 10) (by omega)]
      omega

theorem natRepr_inj {m n : Nat} (h : Nat.repr m = Nat.repr n) : m = n := by
  have hd : (Nat.toDigits 10 m) = (Nat.toDigits 10 n) := congrArg String.data h
  have hm := digitsVal_toDigitsCore (m + 1) m (by omega)
  have hn2 := digitsVal_toDigitsCore (n + 1) n (by omega)
  simp only [Nat.toDigits] at hd
  rw [hd] at hm
  rw [← hm, hn2]

theorem seasonStr_seasonRecord (y : Nat) : seasonStr (seasonRecord y) = some (toString y) := rfl

theorem lookup_map_id (d : Doc) :
    (d.map (fun kv => if kv.1 = "_id" then (kv.1, MVal.str (mvalStr kv.2)) else kv)).lookup "_id"
      = (d.lookup "_id").map (fun v => MVal.str (mvalStr v)) := by
  induction d with
  | nil => rfl
  | cons kv tl ih =>
    obtain ⟨k0, v0⟩ := kv
    by_cases hk : k0 = "_id"
    · subst hk
      simp [List.lookup]
    · have hne : ("_id" == k0) = false := by
        simp only [beq_eq_false_iff_ne, ne_eq]
        exact fun hh => hk hh.symm
      simp only [List.map_cons]
      rw [if_neg hk]
      simp [List.lookup, hne, ih]

theorem convertId_lookup (d : Doc) :
    (convertId d).lookup "_id" = (d.lookup "_id").map (fun v => MVal.str (mvalStr v)) := by
  unfold convertId
  by_cases h : (d.lookup "_id").isSome
  · rw [if_pos h, lookup_map_id]
  · rw [if_neg h]
    rw [Option.not_isSome_iff_eq_none] at h
    rw [h]
    rfl

theorem lookup_isSome_of_mem {k : String} {v : MVal} {d : Doc} (h : (k, v) ∈ d) :
    (d.lookup k).isSome := by
  induction d with
  | nil => cases h
  | cons kv tl ih =>
    obtain ⟨k0, v0⟩ := kv
    rcases List.mem_cons.1 h with heq | hmem
    · obtain ⟨hk, hv⟩ := Prod.mk.injEq k v k0 v0 ▸ heq
      subst hk
      simp [List.lookup]
    · cases hb : (k == k0) with
      | true => simp [List.lookup, hb]
      | false =>
        simp [List.lookup, hb]
        exact ⟨v, hmem⟩

theorem convertId_no_raw (d : Doc)
    (h : ∀ kv ∈ d, kv.2.isRawId = true → kv.1 = "_id") :
    ∀ kv ∈ convertId d, kv.2.isRawId = false := by
  intro kv hkv
  unfold convertId at hkv
  by_cases hs : (d.lookup "_id").isSome
  · rw [if_pos hs] at hkv
    rcases List.mem_map.1 hkv with ⟨kv0, hkv0, heq⟩
    by_cases hk : kv0.1 = "_id"
    · rw [if_pos hk] at heq
      rw [← heq]
      rfl
    · rw [if_neg hk] at heq
      rw [← heq]
      cases hb : kv0.2.isRawId with
      | false => rfl
      | true => exact absurd (h kv0 hkv0 hb) hk
  · rw [if_neg hs] at hkv
    cases hb : kv.2.isRawId with
    | false => rfl
    | true =>
      have hk := h kv hkv hb
      have hmem : (("_id" : String), kv.2) ∈ d := by
        have hkv2 : kv = ("_id", kv.2) := by
          obtain ⟨k0, v0⟩ := kv
          simp at hk ⊢
          exact hk
        rw [← hkv2]
        exact hkv
      exact absurd (lookup_isSome_of_mem hmem) hs

/-! ## Claims -/

/-- C1 (counterexample): the claim says that for race results a missing
results field of the first race yields an empty items list; on the code,
when the upstream 200 body has a nonempty race list whose first race has
no `Results` key, `races[0]["Results"]` raises `KeyError` and the handler
fails instead of returning empty items. -/
theorem race_results_missing_results_counterexample :
    race_results (constNet 200 (Json.obj [("MRData", Json.obj [("RaceTable",
        Json.obj [("Races", Json.arr [Json.obj [("raceName",
        Json.str "Austrian Grand Prix")]])])])])) 2020 1
      = Except.error (PyErr.keyError "Results") := rfl

/-- C1 (amended): for seasons, drivers, constructors and races, and for
the wrapper, table and list levels of race results, a missing envelope
level makes the handler return an empty items list rather than fail; but
when the race list is nonempty and its first race lacks the `Results`
key, `race_results` raises `KeyError` instead. -/
theorem envelope_missing_yields_empty (body : Json) (currentYear : Nat)
    (limit offset season round : Int) :
    (envelopeMissingB body ["MRData", "SeasonTable", "Seasons"] = true →
      list_seasons (constNet 200 body) currentYear limit offset
        = Except.ok (Json.obj [("count", Json.num 0), ("items", Json.arr [])]))
    ∧ (envelopeMissingB body ["MRData", "DriverTable", "Drivers"] = true →
      list_drivers (constNet 200 body) season
        = Except.ok (Json.obj [("season", Json.num season), ("count", Json.num 0),
                               ("items", Json.arr [])]))
    ∧ (envelopeMissingB body ["MRData", "ConstructorTable", "Constructors"] = true →
      list_constructors (constNet 200 body) season
        = Except.ok (Json.obj [("season", Json.num season), ("count", Json.num 0),
                               ("items", Json.arr [])]))
    ∧ (envelopeMissingB body ["MRData", "RaceTable", "Races"] = true →
      list_races (constNet 200 body) season
        = Except.ok (Json.obj [("season", Json.num season), ("count", Json.num 0),
                               ("items", Json.arr [])]))
    ∧ (envelopeMissingB body ["MRData", "RaceTable", "Races"] = true →
      race_results (constNet 200 body) season round
        = Except.ok (Json.obj [("season", Json.num season), ("round", Json.num round),
                               ("count", Json.num 0), ("items", Json.arr [])]))
    ∧ (∀ (body2 : Json) (fsRace : List (String × Json)) (rest : List Json),
      extractEnvelope body2 "RaceTable" "Races"
          = Except.ok (Json.arr (Json.obj fsRace :: rest)) →
      fsRace.lookup "Results" = none →
      race_results (constNet 200 body2) season round
        = Except.error (PyErr.keyError "Results")) := by
  refine ⟨fun h => ?_, fun h => ?_, fun h => ?_, fun h => ?_, fun h => ?_,
          fun body2 fsRace rest hext hmiss => ?_⟩
  · simp [list_seasons, fetch_ergast, constNet, extractEnvelope_of_missing body _ _ h,
          catchUnavailable, Bind.bind, Except.bind, pyLen, Functor.map, Except.map,
          Pure.pure, Except.pure]
  · simp [list_drivers, fetch_ergast, constNet, extractEnvelope_of_missing body _ _ h,
          catchUnavailable, Bind.bind, Except.bind, pyLen, Functor.map, Except.map,
          Pure.pure, Except.pure]
  · simp [list_constructors, fetch_ergast, constNet, extractEnvelope_of_missing body _ _ h,
          catchUnavailable, Bind.bind, Except.bind, pyLen, Functor.map, Except.map,
          Pure.pure, Except.pure]
  · simp [list_races, fetch_ergast, constNet, extractEnvelope_of_missing body _ _ h,
          catchUnavailable, Bind.bind, Except.bind, pyLen, Functor.map, Except.map,
          Pure.pure, Except.pure]
  · simp [race_results, fetch_ergast, constNet, extractEnvelope_of_missing body _ _ h,
          catchUnavailable, Bind.bind, Except.bind, pyTruthy, pyLen, Functor.map,
          Except.map, Pure.pure, Except.pure]
  · simp [race_results, fetch_ergast, constNet, hext, catchUnavailable, Bind.bind,
          Except.bind, pyTruthy, pyGetItemIdx, pyGetItemKey, hmiss, Functor.map,
          Except.map, Pure.pure, Except.pure]

/-- C1 (witness): the amended theorem applied at a body that is an empty
object (every envelope level missing) and, for the last part, at a body
with two races where only the first race lacks the `Results` key. -/
theorem envelope_missing_yields_empty_witness :
    list_seasons (constNet 200 (Json.obj [])) 2025 80 0
        = Except.ok (Json.obj [("count", Json.num 0), ("items", Json.arr [])])
    ∧ list_drivers (constNet 200 (Json.obj [])) 2020
        = Except.ok (Json.obj [("season", Json.num 2020), ("count", Json.num 0),
                               ("items", Json.arr [])])
    ∧ list_constructors (constNet 200 (Json.obj [])) 2020
        = Except.ok (Json.obj [("season", Json.num 2020), ("count", Json.num 0),
                               ("items", Json.arr [])])
    ∧ list_races (constNet 200 (Json.obj [])) 2020
        = Except.ok (Json.obj [("season", Json.num 2020), ("count", Json.num 0),
                               ("items", Json.arr [])])
    ∧ race_results (constNet 200 (Json.obj [])) 2020 1
        = Except.ok (Json.obj [("season", Json.num 2020), ("round", Json.num 1),
                               ("count", Json.num 0), ("items", Json.arr [])])
    ∧ race_results (constNet 200 (Json.obj [("MRData", Json.obj [("RaceTable",
          Json.obj [("Races", Json.arr [Json.obj [("raceName", Json.str "Austrian")],
          Json.obj [("Results", Json.arr [])]])])])])) 2020 1
        = Except.error (PyErr.keyError "Results") :=
  ⟨(envelope_missing_yields_empty (Json.obj []) 2025 80 0 2020 1).1 rfl,
   (envelope_missing_yields_empty (Json.obj []) 2025 80 0 2020 1).2.1 rfl,
   (envelope_missing_yields_empty (Json.obj []) 2025 80 0 2020 1).2.2.1 rfl,
   (envelope_missing_yields_empty (Json.obj []) 2025 80 0 2020 1).2.2.2.1 rfl,
   (envelope_missing_yields_empty (Json.obj []) 2025 80 0 2020 1).2.2.2.2.1 rfl,
   (envelope_missing_yields_empty (Json.obj []) 2025 80 0 2020 1).2.2.2.2.2 _
     [("raceName", Json.str "Austrian")] [Json.obj [("Results", Json.arr [])]] rfl rfl⟩

/-- C2: when the seasons request fails at the transport level, the
response of the seasons handler is exactly the offline generator output
for the same limit and offset, and that output carries the key `offline`
with value `true`. -/
theorem seasons_unavailable_uses_offline_generator (net : Net) (currentYear : Nat)
    (limit offset : Int)
    (h : net (ergastUrl seasonsPath) [("limit", limit), ("offset", offset)]
        = HttpResult.requestException) :
    list_seasons net currentYear limit offset
        = Except.ok (offline_seasons currentYear limit offset)
    ∧ jsonLookup (offline_seasons currentYear limit offset) "offline"
        = some (Json.bool true) := by
  constructor
  · simp [list_seasons, fetch_ergast, h, catchUnavailable, Bind.bind, Except.bind]
  · rfl

/-- C2 (witness): the theorem applied to a network where every request
fails at the transport level, with the default limit and offset. -/
theorem seasons_unavailable_uses_offline_generator_witness :
    list_seasons downNet 2025 80 0 = Except.ok (offline_seasons 2025 80 0)
    ∧ jsonLookup (offline_seasons 2025 80 0) "offline" = some (Json.bool true) :=
  seasons_unavailable_uses_offline_generator downNet 2025 80 0 rfl

/-- C3 (counterexample): the claimed count formula quantifies over every
integer limit and offset, but Python slicing treats negative indices as
counting from the end. At limit 80 and offset -1 the generator returns 1
item while the formula demands 77; and at limit 0 with in-range offset 5
there is no first item at all, against the claimed first-item clause. -/
theorem offline_seasons_formula_counterexample :
    ((responseItems (offline_seasons 2025 80 (-1))).length = 1
      ∧ ¬ ((1 : Int) = max 0 (min 80 ((totalYears 2025 : Int) - (-1)))))
    ∧ ((responseItems (offline_seasons 2025 0 5)).head?.bind seasonStr = none
      ∧ (5 : Int) < (totalYears 2025 : Int)) :=
  ⟨⟨rfl, by decide⟩, ⟨rfl, by decide⟩⟩

/-- C3 (amended): for every nonnegative integer limit and offset, the
offline generator returns exactly max(0, min(limit, totalYears - offset))
items, and when additionally the offset is within range and the limit is
positive, the first item has season equal to the decimal rendering of
1950 + offset; an out-of-range nonnegative offset yields an empty result
and there is no wraparound. -/
theorem offline_seasons_slice_formula (currentYear : Nat) (limit offset : Int)
    (hl : 0 ≤ limit) (ho : 0 ≤ offset) :
    ((responseItems (offline_seasons currentYear limit offset)).length : Int)
        = max 0 (min limit ((totalYears currentYear : Int) - offset))
    ∧ (0 < limit → offset < (totalYears currentYear : Int) →
        (responseItems (offline_seasons currentYear limit offset)).head?.bind seasonStr
          = some (toString (1950 + offset))) := by
  constructor
  · have hr : responseItems (offline_seasons currentYear limit offset)
        = pySlice (seasonsList currentYear) offset (offset + limit) := rfl
    rw [hr]
    simp only [pySlice, pySliceBound, List.length_drop, List.length_take, seasonsList_length]
    rw [if_neg (by omega), if_neg (by omega)]
    omega
  · intro hlpos hor
    have hr : responseItems (offline_seasons currentYear limit offset)
        = pySlice (seasonsList currentYear) offset (offset + limit) := rfl
    rw [hr]
    have hlen := seasonsList_length currentYear
    simp only [pySlice, pySliceBound]
    rw [if_neg (by omega), if_neg (by omega)]
    rw [List.head?_eq_getElem?, List.getElem?_drop]
    have hb : min offset.toNat (seasonsList currentYear).length + 0 = offset.toNat := by omega
    rw [hb]
    have hlt : offset.toNat < min (offset + limit).toNat (seasonsList currentYear).length := by
      omega
    rw [List.getElem?_take_of_lt hlt]
    simp only [seasonsList, List.getElem?_map]
    rw [List.getElem?_range' 1950 1 (by simp [totalYears] at hor ⊢; omega)]
    have hc : (1950 + offset) = ((1950 + 1 * offset.toNat : Nat) : Int) := by omega
    rw [hc, intToString_ofNat]
    simp [seasonRecord, seasonStr, jsonLookup]

/-- C3 (witness): the amended theorem at limit 3 and offset 10 against
the year 2025, giving 3 items starting at season 1960. -/
theorem offline_seasons_slice_formula_witness :
    (((responseItems (offline_seasons 2025 3 10)).length : Int)
        = max 0 (min 3 ((totalYears 2025 : Int) - 10)))
    ∧ (responseItems (offline_seasons 2025 3 10)).head?.bind seasonStr
        = some (toString ((1950 : Int) + 10)) :=
  ⟨(offline_seasons_slice_formula 2025 3 10 (by decide) (by decide)).1,
   (offline_seasons_slice_formula 2025 3 10 (by decide) (by decide)).2
     (by decide) (by decide)⟩

/-- C4: for every year from 1950 through the current year, the full
unsliced list built by the offline generator contains exactly one record
whose season field is the decimal rendering of that year, and the url
field of that record is the Wikipedia reference URL for the year. -/
theorem seasonsList_unique_year_record (currentYear year : Nat)
    (h1 : 1950 ≤ year) (h2 : year ≤ currentYear) :
    (seasonsList currentYear).filter (fun r => seasonStr r == some (toString year))
        = [seasonRecord year]
    ∧ jsonLookup (seasonRecord year) "url" = some (Json.str (wikipediaSeasonUrl year)) := by
  constructor
  · unfold seasonsList
    rw [List.filter_map]
    have hp : ∀ y ∈ List.range' 1950 (currentYear + 1 - 1950),
        ((fun r => seasonStr r == some (toString year)) ∘ seasonRecord) y = (y == year) := by
      intro y _
      simp only [Function.comp_apply, seasonStr_seasonRecord]
      by_cases hyy : y = year
      · subst hyy; simp
      · have hs : toString y ≠ toString year := fun hh => hyy (natRepr_inj hh)
        simp [hyy, hs]
    rw [List.filter_congr hp, List.filter_beq,
        List.count_eq_one_of_mem (List.nodup_range' _ _)
          (by rw [List.mem_range']; exact ⟨year - 1950, by omega, by omega⟩)]
    rfl
  · rfl

/-- C4 (witness): the theorem at the year 2000 against the current year
2025. -/
theorem seasonsList_unique_year_record_witness :
    (seasonsList 2025).filter (fun r => seasonStr r == some (toString 2000))
        = [seasonRecord 2000]
    ∧ jsonLookup (seasonRecord 2000) "url" = some (Json.str (wikipediaSeasonUrl 2000)) :=
  seasonsList_unique_year_record 2025 2000 (by decide) (by decide)

/-- C5: for every endpoint, when upstream answers with any HTTP status
other than 200, the handler fails with an HTTP exception of status 502
whose detail embeds the upstream status code, and no endpoint substitutes
an offline fallback for that error. -/
theorem upstream_non200_propagates_502 (status : Nat) (body : Json)
    (h : status ≠ 200) (currentYear : Nat) (limit offset season round : Int) :
    list_seasons (constNet status body) currentYear limit offset
        = Except.error (PyErr.httpException 502 ("Upstream error " ++ toString status))
    ∧ list_drivers (constNet status body) season
        = Except.error (PyErr.httpException 502 ("Upstream error " ++ toString status))
    ∧ list_constructors (constNet status body) season
        = Except.error (PyErr.httpException 502 ("Upstream error " ++ toString status))
    ∧ list_races (constNet status body) season
        = Except.error (PyErr.httpException 502 ("Upstream error " ++ toString status))
    ∧ race_results (constNet status body) season round
        = Except.error (PyErr.httpException 502 ("Upstream error " ++ toString status)) := by
  refine ⟨?_, ?_, ?_, ?_, ?_⟩
  · simp [list_seasons, fetch_ergast, constNet, h, catchUnavailable, Bind.bind, Except.bind]
  · simp [list_drivers, fetch_ergast, constNet, h, catchUnavailable, Bind.bind, Except.bind]
  · simp [list_constructors, fetch_ergast, constNet, h, catchUnavailable, Bind.bind,
          Except.bind]
  · simp [list_races, fetch_ergast, constNet, h, catchUnavailable, Bind.bind, Except.bind]
  · simp [race_results, fetch_ergast, constNet, h, catchUnavailable, Bind.bind, Except.bind]

/-- C5 (witness): the theorem at upstream status 404. -/
theorem upstream_non200_propagates_502_witness :
    list_seasons (constNet 404 Json.null) 2025 80 0
        = Except.error (PyErr.httpException 502 ("Upstream error " ++ toString 404))
    ∧ list_drivers (constNet 404 Json.null) 2020
        = Except.error (PyErr.httpException 502 ("Upstream error " ++ toString 404))
    ∧ list_constructors (constNet 404 Json.null) 2020
        = Except.error (PyErr.httpException 502 ("Upstream error " ++ toString 404))
    ∧ list_races (constNet 404 Json.null) 2020
        = Except.error (PyErr.httpException 502 ("Upstream error " ++ toString 404))
    ∧ race_results (constNet 404 Json.null) 2020 1
        = Except.error (PyErr.httpException 502 ("Upstream error " ++ toString 404)) :=
  upstream_non200_propagates_502 404 Json.null (by decide) 2025 80 0 2020 1

/-- C6: when the upstream request fails at the transport level, drivers,
constructors, races and results return exactly the context fields plus
count 0, an empty items list, and the key `offline` set to `true`. -/
theorem unavailable_returns_offline_empty (net : Net) (season round : Int)
    (hd : net (ergastUrl (driversPath season)) [] = HttpResult.requestException)
    (hc : net (ergastUrl (constructorsPath season)) [] = HttpResult.requestException)
    (hr : net (ergastUrl (racesPath season)) [] = HttpResult.requestException)
    (hres : net (ergastUrl (resultsPath season round)) [] = HttpResult.requestException) :
    list_drivers net season
        = Except.ok (Json.obj [("season", Json.num season), ("count", Json.num 0),
                               ("items", Json.arr []), ("offline", Json.bool true)])
    ∧ list_constructors net season
        = Except.ok (Json.obj [("season", Json.num season), ("count", Json.num 0),
                               ("items", Json.arr []), ("offline", Json.bool true)])
    ∧ list_races net season
        = Except.ok (Json.obj [("season", Json.num season), ("count", Json.num 0),
                               ("items", Json.arr []), ("offline", Json.bool true)])
    ∧ race_results net season round
        = Except.ok (Json.obj [("season", Json.num season), ("round", Json.num round),
                               ("count", Json.num 0), ("items", Json.arr []),
                               ("offline", Json.bool true)]) := by
  refine ⟨?_, ?_, ?_, ?_⟩
  · simp [list_drivers, fetch_ergast, hd, catchUnavailable, Bind.bind, Except.bind]
  · simp [list_constructors, fetch_ergast, hc, catchUnavailable, Bind.bind, Except.bind]
  · simp [list_races, fetch_ergast, hr, catchUnavailable, Bind.bind, Except.bind]
  · simp [race_results, fetch_ergast, hres, catchUnavailable, Bind.bind, Except.bind]

/-- C6 (witness): the theorem against a network where every request fails
at the transport level. -/
theorem unavailable_returns_offline_empty_witness :
    list_drivers downNet 2020
        = Except.ok (Json.obj [("season", Json.num 2020), ("count", Json.num 0),
                               ("items", Json.arr []), ("offline", Json.bool true)])
    ∧ list_constructors downNet 2020
        = Except.ok (Json.obj [("season", Json.num 2020), ("count", Json.num 0),
                               ("items", Json.arr []), ("offline", Json.bool true)])
    ∧ list_races downNet 2020
        = Except.ok (Json.obj [("season", Json.num 2020), ("count", Json.num 0),
                               ("items", Json.arr []), ("offline", Json.bool true)])
    ∧ race_results downNet 2020 1
        = Except.ok (Json.obj [("season", Json.num 2020), ("round", Json.num 1),
                               ("count", Json.num 0), ("items", Json.arr []),
                               ("offline", Json.bool true)]) :=
  unavailable_returns_offline_empty downNet 2020 1 rfl rfl rfl rfl

/-- C7: when the upstream 200 body for a results request contains an
empty race list, the handler returns the season, the round, count 0 and
an empty items list with success, not an error. -/
theorem race_results_empty_races_ok (net : Net) (season round : Int) (body : Json)
    (hnet : net (ergastUrl (resultsPath season round)) [] = HttpResult.response 200 body)
    (hraces : extractEnvelope body "RaceTable" "Races" = Except.ok (Json.arr [])) :
    race_results net season round
      = Except.ok (Json.obj [("season", Json.num season), ("round", Json.num round),
                             ("count", Json.num 0), ("items", Json.arr [])]) := by
  simp [race_results, fetch_ergast, hnet, hraces, catchUnavailable, Bind.bind, Except.bind,
        pyTruthy, pyLen, Functor.map, Except.map, Pure.pure, Except.pure]

/-- C7 (witness): the theorem at a concrete 200 body whose race list is
empty. -/
theorem race_results_empty_races_ok_witness :
    race_results (constNet 200 (Json.obj [("MRData", Json.obj [("RaceTable",
        Json.obj [("Races", Json.arr [])])])])) 2020 1
      = Except.ok (Json.obj [("season", Json.num 2020), ("round", Json.num 1),
                             ("count", Json.num 0), ("items", Json.arr [])]) :=
  race_results_empty_races_ok (constNet 200 (Json.obj [("MRData", Json.obj [("RaceTable",
    Json.obj [("Races", Json.arr [])])])])) 2020 1 _ rfl rfl

/-- C8: the upstream client always requests base, slash, endpoint path,
`.json`; the races handler passes a path that already ends in `.json`, so
the races URL ends in the double suffix `.json.json`, while the URLs of
the seasons, drivers, constructors and results requests end in a single
`.json`. -/
theorem ergastUrl_single_and_double_json (season round : Int) :
    (∀ endpoint : String, ergastUrl endpoint = ERGAST_BASE ++ "/" ++ endpoint ++ ".json")
    ∧ ".json.json".data <:+ (ergastUrl (racesPath season)).data
    ∧ singleJsonSuffix (ergastUrl seasonsPath)
    ∧ singleJsonSuffix (ergastUrl (driversPath season))
    ∧ singleJsonSuffix (ergastUrl (constructorsPath season))
    ∧ singleJsonSuffix (ergastUrl (resultsPath season round)) := by
  refine ⟨fun _ => rfl, ?_, ?_, ?_, ?_, ?_⟩
  · rw [racesUrl_data season]
    exact List.suffix_append _ _
  · exact ⟨by decide, by decide⟩
  · exact singleJson_of_data _ (ERGAST_BASE ++ "/" ++ toString season) "/drivers.json"
      (driversUrl_data season) (by decide) (by decide) (by decide)
  · exact singleJson_of_data _ (ERGAST_BASE ++ "/" ++ toString season) "/constructors.json"
      (constructorsUrl_data season) (by decide) (by decide) (by decide)
  · exact singleJson_of_data _
      (ERGAST_BASE ++ "/" ++ toString season ++ "/" ++ toString round) "/results.json"
      (resultsUrl_data season round) (by decide) (by decide) (by decide)

/-- C9: for every list of documents the store returns in which raw
internal identifiers occur only under the key `_id`, both favorites list
handlers rewrite the `_id` field of each returned record to the string
rendering of its value, no raw identifier value appears in any returned
record, and the two handlers agree. -/
theorem favorites_id_stringified (docs : List Doc)
    (h : ∀ d ∈ docs, ∀ kv ∈ d, kv.2.isRawId = true → kv.1 = "_id") :
    (get_favorite_drivers docs).count = docs.length
    ∧ (∀ i : Nat, (get_favorite_drivers docs).items[i]?.map (fun r => r.lookup "_id")
        = docs[i]?.map (fun d => (d.lookup "_id").map (fun v => MVal.str (mvalStr v))))
    ∧ (∀ r ∈ (get_favorite_drivers docs).items, ∀ kv ∈ r, kv.2.isRawId = false)
    ∧ get_favorite_constructors docs = get_favorite_drivers docs := by
  refine ⟨by simp [get_favorite_drivers], fun i => ?_, fun r hr kv hkv => ?_, rfl⟩
  · show ((docs.map convertId)[i]?.map (fun r => r.lookup "_id")) = _
    rw [List.getElem?_map]
    cases hd : docs[i]? with
    | none => rfl
    | some d => simp [convertId_lookup]
  · have hr2 : r ∈ docs.map convertId := hr
    rcases List.mem_map.1 hr2 with ⟨d, hd, hconv⟩
    rw [← hconv] at hkv
    exact convertId_no_raw d (h d hd) kv hkv

/-- C9 (witness): the theorem at a single stored document carrying a raw
identifier and one payload field. -/
theorem favorites_id_stringified_witness :
    (get_favorite_drivers [[("_id", MVal.objectId 5),
        ("driver_id", MVal.str "hamilton")]]).count
      = ([[("_id", MVal.objectId 5), ("driver_id", MVal.str "hamilton")]] : List Doc).length
    ∧ (get_favorite_drivers [[("_id", MVal.objectId 5),
          ("driver_id", MVal.str "hamilton")]]).items[0]?.map (fun r => r.lookup "_id")
      = ([[("_id", MVal.objectId 5), ("driver_id", MVal.str "hamilton")]] : List Doc)[0]?.map
          (fun d => (d.lookup "_id").map (fun v => MVal.str (mvalStr v)))
    ∧ get_favorite_constructors [[("_id", MVal.objectId 5),
          ("driver_id", MVal.str "hamilton")]]
      = get_favorite_drivers [[("_id", MVal.objectId 5),
          ("driver_id", MVal.str "hamilton")]] :=
  ⟨(favorites_id_stringified _ (by decide)).1,
   (favorites_id_stringified _ (by decide)).2.1 0,
   (favorites_id_stringified _ (by decide)).2.2.2⟩

/-- C10: calling the seasons endpoint with both query parameters absent
behaves exactly as supplying limit 80 and offset 0, on the online path
and the offline fallback alike. -/
theorem seasons_default_limit80_offset0 (net : Net) (currentYear : Nat) :
    list_seasons_endpoint net currentYear none none
        = list_seasons_endpoint net currentYear (some 80) (some 0)
    ∧ list_seasons_endpoint net currentYear none none
        = list_seasons net currentYear 80 0 :=
  ⟨rfl, rfl⟩

end F1Api
